import Mathlib

/-!
Verification of `proxy_skinning_util.py` against its specification.

The script is a thin orchestration layer over a host 3D application's
scripting API (`maya.cmds`).  We shallow-embed the two functions
(`extract_faces`, `copy_proxy_to_skin`) and the `_undo` decorator as pure
Lean functions over an abstract *host*: a structure of response functions,
each of which may depend on the full history of host calls issued so far
(so stateful hosts are covered).  Every host-API call the script issues is
recorded in a trace, which lets us state and prove properties about the
exact call sequences (undo wrapping, guard atomicity, pose save/restore
discipline, the single `copySkinWeights` call, determinism).

Python exceptions are modelled by an `Outcome` type: `runtimeError msg`
for `raise RuntimeError(msg)`, and `pyError` for any other Python error
the code can hit (e.g. an `IndexError` from `[0]` on an empty host
result).  Python truthiness of optional strings / lists is modelled
explicitly.
-/

/-- One call into the host application's scripting API, with the arguments
the script passes.  Constructors correspond one-to-one to the `cmds.*`
call sites in `proxy_skinning_util.py`. -/
inductive HostCall where
  /-- `cmds.undoInfo(ock=True)` -/
  | undoInfoOpenChunk
  /-- `cmds.undoInfo(cck=False)` -/
  | undoInfoCloseChunk
  /-- `cmds.undo()` -/
  | undo
  /-- `cmds.ls(sl=True)` / `cmds.ls(sl=1)` -/
  | lsSelection
  /-- `cmds.filterExpand(items, ex=True, sm=34)` -/
  | filterExpandFaces (items : List String)
  /-- `cmds.listRelatives(p=1)` (implicitly on the current selection) -/
  | listRelativesParentSel
  /-- `cmds.listRelatives(objs, p=1)` -/
  | listRelativesParent (objs : List String)
  /-- `cmds.select(obj, tgl=1)` -/
  | selectToggle (obj : String)
  /-- `cmds.skinCluster(objs, q=True, wi=True)` -/
  | skinClusterQueryWI (objs : List String)
  /-- `cmds.skinCluster(obj, q=True, inf=True)` -/
  | skinClusterQueryInf (obj : String)
  /-- `cmds.dagPose(influences, save=True, name=n)` -/
  | dagPoseSave (influences : List String) (n : String)
  /-- `cmds.dagPose(influences, q=True, bindPose=True)` -/
  | dagPoseQueryBindPose (influences : List String)
  /-- `cmds.dagPose(poses, restore=True)` with a list argument -/
  | dagPoseRestoreList (poses : List String)
  /-- `cmds.dagPose(pose, restore=True)` with a single pose argument -/
  | dagPoseRestore (pose : String)
  /-- `cmds.duplicate(obj)` -/
  | duplicate (obj : String)
  /-- `cmds.rename(obj, n)` -/
  | rename (obj n : String)
  /-- `cmds.delete(objs)` with a list argument -/
  | deleteObjs (objs : List String)
  /-- `cmds.delete(obj)` with a single object argument -/
  | deleteObj (obj : String)
  /-- `cmds.delete(obj, ch=1)` -/
  | deleteConstructionHistory (obj : String)
  /-- `cmds.bakePartialHistory(obj, prePostDeformers=True)` -/
  | bakePartialHistory (obj : String)
  /-- `cmds.listHistory(obj)` -/
  | listHistory (obj : String)
  /-- `cmds.ls(objs, type='skinCluster')` -/
  | lsTypeSkinCluster (objs : List String)
  /-- `cmds.skinCluster(influences, mesh, toSelectedBones=True, rui=False, n=n)` -/
  | skinClusterCreate (influences : List String) (mesh n : String)
  /-- `cmds.copySkinWeights(sourceSkin=s, destinationSkin=d, surfaceAssociation=sa, influenceAssociation=ia, noMirror=nm)` -/
  | copySkinWeights (sourceSkin destinationSkin surfaceAssociation influenceAssociation : String) (noMirror : Bool)
  /-- `cmds.select(obj, r=1)` -/
  | selectReplace (obj : String)
  /-- `cmds.select(cl=1)` -/
  | selectClear
  deriving DecidableEq

/-- The sequence of host-API calls issued so far, in order. -/
abbrev Trace := List HostCall

/-- Result of running a piece of the script: a normal return value, a
`RuntimeError` raised by the script itself, or any other Python error
(e.g. `IndexError` when the script subscripts an empty host result). -/
inductive Outcome (α : Type) where
  | ok (val : α)
  | runtimeError (msg : String)
  | pyError
  deriving DecidableEq

/-- The host application, as the script sees it: one response function per
`cmds.*` query the script reads a value from.  Each response may depend on
the full trace of host calls issued before it, so hosts with internal
state (scene graph, selection, undo stack) are faithfully covered.
Commands whose return value the script ignores (`select`, `delete`,
`dagPose(restore)`, `copySkinWeights`, `bakePartialHistory`, `undoInfo`,
`undo`) need no response function; they only extend the trace. -/
structure Host where
  lsSelection : Trace → List String
  filterExpandFaces : Trace → List String → Option (List String)
  listRelativesParentSel : Trace → List String
  listRelativesParent : Trace → List String → List String
  skinClusterQueryWI : Trace → List String → List String
  skinClusterQueryInf : Trace → String → List String
  dagPoseSave : Trace → List String → String → String
  dagPoseQueryBindPose : Trace → List String → List String
  duplicate : Trace → String → List String
  rename : Trace → String → String → String
  listHistory : Trace → String → List String
  lsTypeSkinCluster : Trace → List String → List String
  skinClusterCreate : Trace → List String → String → String → List String

/-- Python truthiness of an optional string argument (`None` and `''` are
falsy). -/
def optStrTruthy : Option String → Bool
  | none => false
  | some s => !s.isEmpty

/-- Python truthiness of an optional list argument (`None` and `[]` are
falsy). -/
def optListTruthy : Option (List String) → Bool
  | none => false
  | some l => !l.isEmpty

/-- `copy_proxy_to_skin`, from the point where `src_mesh` and `dst_mesh`
have been determined (source lines 133-166): skin-cluster lookup and
guard, pose save, bind-pose restore, optional destination skin-cluster
creation, the `copySkinWeights` call, pose restore and cleanup. -/
def copy_proxy_core (src_mesh dst_mesh : String) (host : Host) (tr : Trace) :
    Outcome (List String) × Trace :=
  -- src_skin = cmds.ls(cmds.listHistory(src_mesh), type='skinCluster')
  let histSrc := host.listHistory tr src_mesh
  let tr := tr ++ [HostCall.listHistory src_mesh]
  let src_skin := host.lsTypeSkinCluster tr histSrc
  let tr := tr ++ [HostCall.lsTypeSkinCluster histSrc]
  match src_skin with
  | [] =>
    -- raise RuntimeError("{} does not have a skinCluster".format(src_skin));
    -- here src_skin is the empty list, which str.format renders as "[]"
    (Outcome.runtimeError "[] does not have a skinCluster", tr)
  | s0 :: srest =>
    -- dst_skin = cmds.ls(cmds.listHistory(dst_mesh), type='skinCluster')
    let histDst := host.listHistory tr dst_mesh
    let tr := tr ++ [HostCall.listHistory dst_mesh]
    let dst_skin := host.lsTypeSkinCluster tr histDst
    let tr := tr ++ [HostCall.lsTypeSkinCluster histDst]
    -- influence_list = cmds.skinCluster(src_skin, q=True, wi=True)
    let influence_list := host.skinClusterQueryWI tr (s0 :: srest)
    let tr := tr ++ [HostCall.skinClusterQueryWI (s0 :: srest)]
    -- cur_pose = cmds.dagPose(influence_list, save=True, name='skinToPose')
    let cur_pose := host.dagPoseSave tr influence_list "skinToPose"
    let tr := tr ++ [HostCall.dagPoseSave influence_list "skinToPose"]
    -- bind_pose = cmds.dagPose(influence_list, q=True, bindPose=True)
    let bind_pose := host.dagPoseQueryBindPose tr influence_list
    let tr := tr ++ [HostCall.dagPoseQueryBindPose influence_list]
    -- if bind_pose: cmds.dagPose(bind_pose[0], restore=True)
    let tr := match bind_pose with
      | [] => tr
      | bp0 :: _ => tr ++ [HostCall.dagPoseRestore bp0]
    -- if not dst_skin: build the destination skinCluster
    let build : List String × Trace :=
      match dst_skin with
      | [] =>
        let dst_pre := (dst_mesh.splitOn ":").getLastD ""
        let src_influence_list := host.skinClusterQueryInf tr s0
        let tr := tr ++ [HostCall.skinClusterQueryInf s0]
        let created := host.skinClusterCreate tr src_influence_list dst_mesh
          (dst_pre ++ "_skinCluster")
        let tr := tr ++ [HostCall.skinClusterCreate src_influence_list dst_mesh
          (dst_pre ++ "_skinCluster")]
        (created, tr)
      | d => (d, tr)
    match build with
    | (dst_skin, tr) =>
      match dst_skin with
      | [] =>
        -- dst_skin[0] on an empty list: IndexError
        (Outcome.pyError, tr)
      | d0 :: _ =>
        -- cmds.copySkinWeights(sourceSkin=str(src_skin[0]), destinationSkin=str(dst_skin[0]),
        --   surfaceAssociation='closestPoint', influenceAssociation='name', noMirror=True)
        let tr := tr ++ [HostCall.copySkinWeights s0 d0 "closestPoint" "name" true]
        -- cmds.dagPose(cur_pose, restore=True); cmds.delete(cur_pose); cmds.select(cl=1)
        let tr := tr ++ [HostCall.dagPoseRestore cur_pose]
        let tr := tr ++ [HostCall.deleteObj cur_pose]
        let tr := tr ++ [HostCall.selectClear]
        (Outcome.ok dst_skin, tr)

/-- The body of `copy_proxy_to_skin` (source lines 116-166).  The selection
test: `if not src_mesh or not dst_mesh`, take both meshes from the current
selection, raising unless exactly two objects are selected. -/
def copy_proxy_to_skin_body (src_mesh dst_mesh : Option String) (host : Host) (tr : Trace) :
    Outcome (List String) × Trace :=
  if optStrTruthy src_mesh && optStrTruthy dst_mesh then
    copy_proxy_core (src_mesh.getD "") (dst_mesh.getD "") host tr
  else
    -- meshes = cmds.ls(sl=1)
    let meshes := host.lsSelection tr
    let tr := tr ++ [HostCall.lsSelection]
    match meshes with
    | [m0, m1] => copy_proxy_core m0 m1 host tr
    | _ => (Outcome.runtimeError "You need to have TWO meshes selected!", tr)

/-- `copy_proxy_to_skin` as exported by the module: the plain body, with no
decorator applied (line 116 carries no `@_undo`). -/
def copy_proxy_to_skin (src_mesh dst_mesh : Option String) (host : Host) :
    Outcome (List String) × Trace :=
  copy_proxy_to_skin_body src_mesh dst_mesh host []

/-- Lines 61-64 of `extract_faces`: the faces the function operates on,
and the trace after the optional selection query
(`if not face_list: selected_faces = cmds.ls(sl=True) else: selected_faces = face_list`). -/
def extract_selected_faces (face_list : Option (List String)) (host : Host) (tr : Trace) :
    List String × Trace :=
  if optListTruthy face_list then (face_list.getD [], tr)
  else (host.lsSelection tr, tr ++ [HostCall.lsSelection])

/-- The body of `extract_faces` (source lines 51-113). -/
def extract_faces_body (face_list : Option (List String)) (new_name : Option String)
    (keep_original copy_skinning : Bool) (host : Host) (tr : Trace) :
    Outcome String × Trace :=
  -- if not face_list: selected_faces = cmds.ls(sl=True) else: selected_faces = face_list
  let sel : List String × Trace := extract_selected_faces face_list host tr
  match sel with
  | (selected_faces, tr) =>
    -- if not bool(cmds.filterExpand(selected_faces, ex=True, sm=34)) or []:
    -- (`or []` is a no-op: the condition is truthy exactly when the filter
    -- result is falsy)
    let fe := host.filterExpandFaces tr selected_faces
    let tr := tr ++ [HostCall.filterExpandFaces selected_faces]
    if !optListTruthy fe then
      (Outcome.runtimeError "Must select one or more faces", tr)
    else
      -- shape = cmds.listRelatives(p=1)
      let shape := host.listRelativesParentSel tr
      let tr := tr ++ [HostCall.listRelativesParentSel]
      -- cur_mesh = cmds.listRelatives(shape, p=1)[0]
      let parents := host.listRelativesParent tr shape
      let tr := tr ++ [HostCall.listRelativesParent shape]
      match parents with
      | [] => (Outcome.pyError, tr)
      | cur_mesh :: _ =>
        -- cmds.select(cur_mesh + '.f[:]', tgl=1)
        let tr := tr ++ [HostCall.selectToggle (cur_mesh ++ ".f[:]")]
        -- faces_to_extract = cmds.ls(sl=1)
        let faces_to_extract := host.lsSelection tr
        let tr := tr ++ [HostCall.lsSelection]
        -- influence_list = cmds.skinCluster(cur_mesh, q=True, wi=True)
        let influence_list := host.skinClusterQueryWI tr [cur_mesh]
        let tr := tr ++ [HostCall.skinClusterQueryWI [cur_mesh]]
        -- cur_pose = cmds.dagPose(influence_list, save=True, name='extractInPose')
        let cur_pose := host.dagPoseSave tr influence_list "extractInPose"
        let tr := tr ++ [HostCall.dagPoseSave influence_list "extractInPose"]
        -- bind_pose = cmds.dagPose(influence_list, q=True, bindPose=True)
        let bind_pose := host.dagPoseQueryBindPose tr influence_list
        let tr := tr ++ [HostCall.dagPoseQueryBindPose influence_list]
        -- cmds.dagPose(bind_pose, restore=True)
        let tr := tr ++ [HostCall.dagPoseRestoreList bind_pose]
        -- new_mesh = cmds.duplicate(cur_mesh)[0]
        let dup := host.duplicate tr cur_mesh
        let tr := tr ++ [HostCall.duplicate cur_mesh]
        match dup with
        | [] => (Outcome.pyError, tr)
        | d0 :: _ =>
          -- if new_name: new_mesh = cmds.rename(new_mesh, new_name)
          let ren : String × Trace :=
            if optStrTruthy new_name then
              (host.rename tr d0 (new_name.getD ""),
                tr ++ [HostCall.rename d0 (new_name.getD "")])
            else (d0, tr)
          match ren with
          | (new_mesh, tr) =>
            -- if copy_skinning: copy_proxy_to_skin(cur_mesh, new_mesh)
            let cps : Outcome (List String) × Trace :=
              if copy_skinning then
                copy_proxy_to_skin_body (some cur_mesh) (some new_mesh) host tr
              else (Outcome.ok [], tr)
            let tr := cps.2
            match cps.1 with
            | Outcome.runtimeError m => (Outcome.runtimeError m, tr)
            | Outcome.pyError => (Outcome.pyError, tr)
            | Outcome.ok _ =>
              -- if not keep_original: cmds.delete(selected_faces)
              let tr := if keep_original then tr
                else tr ++ [HostCall.deleteObjs selected_faces]
              -- faces_to_extract[i] = faces_to_extract[i].replace(cur_mesh, new_mesh)
              let faces2 := faces_to_extract.map (fun f => f.replace cur_mesh new_mesh)
              -- cmds.delete(faces_to_extract)
              let tr := tr ++ [HostCall.deleteObjs faces2]
              -- if copy_skinning: bakePartialHistory on both, else delete(new_mesh, ch=1)
              let tr := if copy_skinning then
                  tr ++ [HostCall.bakePartialHistory cur_mesh,
                    HostCall.bakePartialHistory new_mesh]
                else tr ++ [HostCall.deleteConstructionHistory new_mesh]
              -- cmds.dagPose(cur_pose, restore=True); cmds.delete(cur_pose)
              let tr := tr ++ [HostCall.dagPoseRestore cur_pose]
              let tr := tr ++ [HostCall.deleteObj cur_pose]
              -- cmds.select(new_mesh, r=1)
              let tr := tr ++ [HostCall.selectReplace new_mesh]
              (Outcome.ok new_mesh, tr)

/-- The `_undo` decorator (source lines 31-47): open an undo chunk, run the
body, and in the `finally` block issue `cmds.undoInfo(cck=False)` followed
by `cmds.undo()` — whether the body returned normally or raised. -/
def _undo {α : Type} (body : Host → Trace → Outcome α × Trace)
    (host : Host) (tr : Trace) : Outcome α × Trace :=
  let tr := tr ++ [HostCall.undoInfoOpenChunk]
  let r := body host tr
  (r.1, r.2 ++ [HostCall.undoInfoCloseChunk, HostCall.undo])

/-- `extract_faces` as exported by the module: the body wrapped by `@_undo`
(source line 50). -/
def extract_faces (face_list : Option (List String)) (new_name : Option String)
    (keep_original copy_skinning : Bool) (host : Host) : Outcome String × Trace :=
  _undo (extract_faces_body face_list new_name keep_original copy_skinning) host []

/-- A well-behaved sample host: two faces of `pCube1` are selected, every
mesh has a skin cluster in its history, and creation/duplication return
the conventional names. -/
def hostA : Host where
  lsSelection := fun _ => ["pCube1.f[0]", "pCube1.f[1]"]
  filterExpandFaces := fun _ items => if items.isEmpty then none else some items
  listRelativesParentSel := fun _ => ["pCubeShape1"]
  listRelativesParent := fun _ _ => ["pCube1"]
  skinClusterQueryWI := fun _ _ => ["joint1"]
  skinClusterQueryInf := fun _ _ => ["joint1"]
  dagPoseSave := fun _ _ n => n ++ "1"
  dagPoseQueryBindPose := fun _ _ => ["bindPose1"]
  duplicate := fun _ m => [m ++ "_copy"]
  rename := fun _ _ n => n
  listHistory := fun _ m => [m ++ "History"]
  lsTypeSkinCluster := fun _ h =>
    if h = ["proxyHistory"] then ["proxySkin"]
    else if h = ["hiresHistory"] then ["hiresSkin"]
    else []
  skinClusterCreate := fun _ _ _ n => [n]

/-- A host with an empty selection (nothing selected in the scene). -/
def hostEmptySel : Host where
  lsSelection := fun _ => []
  filterExpandFaces := fun _ items => if items.isEmpty then none else some items
  listRelativesParentSel := fun _ => ["pCubeShape1"]
  listRelativesParent := fun _ _ => ["pCube1"]
  skinClusterQueryWI := fun _ _ => ["joint1"]
  skinClusterQueryInf := fun _ _ => ["joint1"]
  dagPoseSave := fun _ _ n => n ++ "1"
  dagPoseQueryBindPose := fun _ _ => ["bindPose1"]
  duplicate := fun _ m => [m ++ "_copy"]
  rename := fun _ _ n => n
  listHistory := fun _ m => [m ++ "History"]
  lsTypeSkinCluster := fun _ _ => []
  skinClusterCreate := fun _ _ _ n => [n]

/-- A host with two meshes selected, both of which already carry a skin
cluster in their history. -/
def hostTwoSel : Host where
  lsSelection := fun _ => ["proxy", "hires"]
  filterExpandFaces := fun _ items => if items.isEmpty then none else some items
  listRelativesParentSel := fun _ => ["proxyShape"]
  listRelativesParent := fun _ _ => ["proxy"]
  skinClusterQueryWI := fun _ _ => ["joint1"]
  skinClusterQueryInf := fun _ _ => ["joint1"]
  dagPoseSave := fun _ _ n => n ++ "1"
  dagPoseQueryBindPose := fun _ _ => ["bindPose1"]
  duplicate := fun _ m => [m ++ "_copy"]
  rename := fun _ _ n => n
  listHistory := fun _ m => [m ++ "History"]
  lsTypeSkinCluster := fun _ h =>
    if h = ["proxyHistory"] then ["proxySkin"]
    else if h = ["hiresHistory"] then ["hiresSkin"]
    else []
  skinClusterCreate := fun _ _ _ n => [n]

/-- A host with two meshes selected and no skin cluster anywhere. -/
def hostNoSkin : Host where
  lsSelection := fun _ => ["proxy", "hires"]
  filterExpandFaces := fun _ items => if items.isEmpty then none else some items
  listRelativesParentSel := fun _ => ["proxyShape"]
  listRelativesParent := fun _ _ => ["proxy"]
  skinClusterQueryWI := fun _ _ => ["joint1"]
  skinClusterQueryInf := fun _ _ => ["joint1"]
  dagPoseSave := fun _ _ n => n ++ "1"
  dagPoseQueryBindPose := fun _ _ => ["bindPose1"]
  duplicate := fun _ m => [m ++ "_copy"]
  rename := fun _ _ n => n
  listHistory := fun _ m => [m ++ "History"]
  lsTypeSkinCluster := fun _ _ => []
  skinClusterCreate := fun _ _ _ n => [n]

example : (copy_proxy_to_skin none none hostEmptySel).1 =
    Outcome.runtimeError "You need to have TWO meshes selected!" := by decide

example : (copy_proxy_to_skin none none hostEmptySel).2 = [HostCall.lsSelection] := by decide

example : (copy_proxy_to_skin (some "proxy") (some "hires") hostTwoSel).1 =
    Outcome.ok ["hiresSkin"] := by decide

example : (copy_proxy_to_skin none none hostNoSkin).1 =
    Outcome.runtimeError "[] does not have a skinCluster" := by decide

example : (extract_faces none none false false hostA).1 = Outcome.ok "pCube1_copy" := by
  decide

example : (extract_faces none none false false hostEmptySel).1 =
    Outcome.runtimeError "Must select one or more faces" := by decide

example : (extract_faces none none false false hostEmptySel).2 =
    [HostCall.undoInfoOpenChunk, HostCall.lsSelection, HostCall.filterExpandFaces [],
      HostCall.undoInfoCloseChunk, HostCall.undo] := by decide

/-- Undo-transaction control calls: the three calls issued by the `_undo`
decorator itself. -/
def isUndoCtrl : HostCall → Bool
  | HostCall.undoInfoOpenChunk => true
  | HostCall.undoInfoCloseChunk => true
  | HostCall.undo => true
  | _ => false

/-- Pure query calls: host calls that read scene information without
changing the scene (selection listing, component filtering, hierarchy and
history listing, skin-cluster and pose queries). -/
def isQueryCall : HostCall → Bool
  | HostCall.lsSelection => true
  | HostCall.filterExpandFaces _ => true
  | HostCall.listRelativesParentSel => true
  | HostCall.listRelativesParent _ => true
  | HostCall.skinClusterQueryWI _ => true
  | HostCall.skinClusterQueryInf _ => true
  | HostCall.dagPoseQueryBindPose _ => true
  | HostCall.listHistory _ => true
  | HostCall.lsTypeSkinCluster _ => true
  | _ => false

theorem copy_core_countP (p : HostCall → Bool) (hp : ∀ c, isUndoCtrl c = false → p c = false)
    (s d : String) (host : Host) (tr : Trace) :
    ((copy_proxy_core s d host tr).2).countP p = tr.countP p := by
  simp only [copy_proxy_core]
  repeat' split
  all_goals simp [List.countP_append, List.countP_cons, hp, isUndoCtrl]

theorem copy_body_countP (p : HostCall → Bool) (hp : ∀ c, isUndoCtrl c = false → p c = false)
    (a b : Option String) (host : Host) (tr : Trace) :
    ((copy_proxy_to_skin_body a b host tr).2).countP p = tr.countP p := by
  simp only [copy_proxy_to_skin_body]
  split
  · exact copy_core_countP p hp _ _ host tr
  · split
    · rw [copy_core_countP p hp]
      simp [List.countP_append, List.countP_cons, hp, isUndoCtrl]
    · simp [List.countP_append, List.countP_cons, hp, isUndoCtrl]

theorem extract_body_countP (p : HostCall → Bool) (hp : ∀ c, isUndoCtrl c = false → p c = false)
    (fl : Option (List String)) (nn : Option String) (ko cs : Bool) (host : Host) (tr : Trace) :
    ((extract_faces_body fl nn ko cs host tr).2).countP p = tr.countP p := by
  simp only [extract_faces_body, extract_selected_faces]
  repeat' split
  all_goals
    simp [copy_body_countP p hp, List.countP_append, List.countP_cons, hp, isUndoCtrl]

theorem copy_core_trace_eq (s d : String) (host : Host) (tr : Trace) :
    (copy_proxy_core s d host tr).2 =
      tr ++ ((copy_proxy_core s d host tr).2.drop tr.length) := by
  simp only [copy_proxy_core]
  repeat' split
  all_goals simp only [List.append_assoc, List.drop_left]

theorem copy_core_trace_ext (s d : String) (host : Host) (tr : Trace) :
    ∃ u, (copy_proxy_core s d host tr).2 = tr ++ u :=
  ⟨_, copy_core_trace_eq s d host tr⟩

theorem copy_body_trace_eq (a b : Option String) (host : Host) (tr : Trace) :
    (copy_proxy_to_skin_body a b host tr).2 =
      tr ++ ((copy_proxy_to_skin_body a b host tr).2.drop tr.length) := by
  simp only [copy_proxy_to_skin_body]
  repeat' split
  all_goals try (obtain ⟨u, hu⟩ := copy_core_trace_ext _ _ host _; rw [hu])
  all_goals simp only [List.append_assoc, List.drop_left]

theorem copy_body_trace_ext (a b : Option String) (host : Host) (tr : Trace) :
    ∃ u, (copy_proxy_to_skin_body a b host tr).2 = tr ++ u :=
  ⟨_, copy_body_trace_eq a b host tr⟩

theorem extract_body_trace_eq (fl : Option (List String)) (nn : Option String)
    (ko cs : Bool) (host : Host) (tr : Trace) :
    (extract_faces_body fl nn ko cs host tr).2 =
      tr ++ ((extract_faces_body fl nn ko cs host tr).2.drop tr.length) := by
  simp only [extract_faces_body, extract_selected_faces]
  repeat' split
  all_goals try (obtain ⟨u, hu⟩ := copy_body_trace_ext _ _ host _; rw [hu])
  all_goals simp only [List.append_assoc, List.drop_left]

theorem extract_body_trace_ext (fl : Option (List String)) (nn : Option String)
    (ko cs : Bool) (host : Host) (tr : Trace) :
    ∃ u, (extract_faces_body fl nn ko cs host tr).2 = tr ++ u :=
  ⟨_, extract_body_trace_eq fl nn ko cs host tr⟩

theorem copy_core_msgs (s d : String) (host : Host) (tr : Trace) (m : String)
    (h : (copy_proxy_core s d host tr).1 = Outcome.runtimeError m) :
    m = "[] does not have a skinCluster" := by
  simp only [copy_proxy_core] at h
  repeat' split at h
  all_goals simp_all

theorem copy_body_msgs (a b : Option String) (host : Host) (tr : Trace) (m : String)
    (h : (copy_proxy_to_skin_body a b host tr).1 = Outcome.runtimeError m) :
    m = "You need to have TWO meshes selected!" ∨ m = "[] does not have a skinCluster" := by
  simp only [copy_proxy_to_skin_body] at h
  repeat' split at h
  · exact Or.inr (copy_core_msgs _ _ host _ m h)
  · exact Or.inr (copy_core_msgs _ _ host _ m h)
  · simp_all

/-- C1 (counterexample): the claim says both public operations execute
inside the undo-transaction decorator, so every call's host-call sequence
begins with `undoInfo(ock=True)`.  Calling `copy_proxy_to_skin` with no
arguments and an empty selection issues exactly one host call,
`ls(sl=1)`, and no undo-chunk call at all: `copy_proxy_to_skin` is not
wrapped by `_undo`. -/
theorem copy_proxy_not_wrapped_cex :
    (copy_proxy_to_skin none none hostEmptySel).2 = [HostCall.lsSelection] ∧
    (copy_proxy_to_skin none none hostEmptySel).2.head? ≠
      some HostCall.undoInfoOpenChunk := by decide

/-- C1 (amended): `extract_faces` executes inside the undo-transaction
decorator — every call's host-call sequence begins with
`undoInfo(ock=True)` and ends with the decorator's closing calls
`undoInfo(cck=False)`, `undo()` — but `copy_proxy_to_skin` is not
decorated: its call sequence contains no undo-transaction control call. -/
theorem extract_wrapped_copy_not_wrapped :
    (∀ fl nn ko cs host,
      (extract_faces fl nn ko cs host).2.head? = some HostCall.undoInfoOpenChunk ∧
      (extract_faces fl nn ko cs host).2.reverse.take 2 =
        [HostCall.undo, HostCall.undoInfoCloseChunk]) ∧
    (∀ a b host, (copy_proxy_to_skin a b host).2.countP (fun c => isUndoCtrl c) = 0) := by
  constructor
  · intro fl nn ko cs host
    obtain ⟨u, hu⟩ := extract_body_trace_ext fl nn ko cs host [HostCall.undoInfoOpenChunk]
    simp only [extract_faces, _undo, List.nil_append]
    rw [hu]
    constructor
    · simp
    · simp [List.reverse_append]
  · intro a b host
    have h := copy_body_countP (fun c => isUndoCtrl c) (fun _ hc => hc) a b host []
    simpa using h

/-- C2: every call to `extract_faces` — returning normally or raising —
issues, after the body finishes, the decorator's `finally` calls:
`undoInfo(cck=False)` followed by exactly one `undo()`; the body itself
issues no undo-control call, so a host undo ends every invocation,
successful ones included. -/
theorem extract_always_ends_with_undo (fl : Option (List String)) (nn : Option String)
    (ko cs : Bool) (host : Host) :
    ∃ s, (extract_faces fl nn ko cs host).2 =
        HostCall.undoInfoOpenChunk :: s ++ [HostCall.undoInfoCloseChunk, HostCall.undo] ∧
      ∀ c ∈ s, isUndoCtrl c = false := by
  obtain ⟨u, hu⟩ := extract_body_trace_ext fl nn ko cs host [HostCall.undoInfoOpenChunk]
  have hcnt := extract_body_countP (fun c => isUndoCtrl c) (fun _ hc => hc)
    fl nn ko cs host [HostCall.undoInfoOpenChunk]
  rw [hu] at hcnt
  simp [List.countP_append, List.countP_cons, isUndoCtrl] at hcnt
  refine ⟨u, ?_, ?_⟩
  · simp only [extract_faces, _undo, List.nil_append]
    rw [hu]
    simp
  · intro c hc
    have := hcnt c hc
    simpa [isUndoCtrl] using this

/-- C4: when `src_mesh` or `dst_mesh` is not supplied (falsy),
`copy_proxy_to_skin` raises `RuntimeError` exactly when the current host
selection does not hold exactly two objects; with exactly two selected,
the first becomes the source and the second the destination (the run
continues as `copy_proxy_core` on that pair). -/
theorem copy_two_mesh_guard (a b : Option String) (host : Host)
    (hsel : optStrTruthy a = false ∨ optStrTruthy b = false) :
    ((copy_proxy_to_skin a b host).1 =
        Outcome.runtimeError "You need to have TWO meshes selected!" ↔
      (host.lsSelection []).length ≠ 2) ∧
    (∀ m0 m1, host.lsSelection [] = [m0, m1] →
      copy_proxy_to_skin a b host = copy_proxy_core m0 m1 host [HostCall.lsSelection]) := by
  have hc : (optStrTruthy a && optStrTruthy b) = false := by
    rcases hsel with h | h <;> simp [h]
  constructor
  · constructor
    · intro h hlen
      obtain ⟨m0, m1, hl⟩ := List.length_eq_two.mp hlen
      simp only [copy_proxy_to_skin, copy_proxy_to_skin_body, hc, Bool.false_eq_true,
        if_false, List.nil_append, hl] at h
      have := copy_core_msgs m0 m1 host [HostCall.lsSelection] _ h
      simp at this
    · intro hlen
      simp only [copy_proxy_to_skin, copy_proxy_to_skin_body, hc, Bool.false_eq_true,
        if_false, List.nil_append]
      split
      · rename_i heq
        rw [heq] at hlen
        simp at hlen
      · rfl
  · intro m0 m1 hl
    simp only [copy_proxy_to_skin, copy_proxy_to_skin_body, hc, Bool.false_eq_true,
      if_false, List.nil_append, hl]

/-- C4 witness: with nothing selected, `copy_proxy_to_skin()` raises the
two-meshes `RuntimeError`. -/
theorem copy_two_mesh_guard_witness :
    (copy_proxy_to_skin none none hostEmptySel).1 =
      Outcome.runtimeError "You need to have TWO meshes selected!" :=
  (copy_two_mesh_guard none none hostEmptySel (Or.inl rfl)).1.mpr (by decide)

/-- C5: once source and destination meshes are determined, the function
raises `RuntimeError` when the source mesh's history holds no skinCluster
(stopping right after the two lookup calls); when the source does have
one, no `RuntimeError` at all is raised and the run proceeds. -/
theorem copy_missing_skin_guard (s d : String) (host : Host) (tr : Trace) :
    (host.lsTypeSkinCluster (tr ++ [HostCall.listHistory s]) (host.listHistory tr s) = [] →
      copy_proxy_core s d host tr =
        (Outcome.runtimeError "[] does not have a skinCluster",
          tr ++ [HostCall.listHistory s,
            HostCall.lsTypeSkinCluster (host.listHistory tr s)])) ∧
    (host.lsTypeSkinCluster (tr ++ [HostCall.listHistory s]) (host.listHistory tr s) ≠ [] →
      ∀ m, (copy_proxy_core s d host tr).1 ≠ Outcome.runtimeError m) := by
  constructor
  · intro h
    simp only [copy_proxy_core, h]
    simp
  · intro h m hc
    simp only [copy_proxy_core] at hc
    repeat' split at hc
    all_goals simp_all

/-- C5 witness: with no skin cluster on the source the guard raises; with
a skinned source (`hostTwoSel`) no `RuntimeError` is raised. -/
theorem copy_missing_skin_guard_witness :
    copy_proxy_core "proxy" "hires" hostNoSkin [] =
      (Outcome.runtimeError "[] does not have a skinCluster",
        [HostCall.listHistory "proxy",
          HostCall.lsTypeSkinCluster (hostNoSkin.listHistory [] "proxy")]) ∧
    ∀ m, (copy_proxy_core "proxy" "hires" hostTwoSel []).1 ≠ Outcome.runtimeError m :=
  ⟨by
    have := (copy_missing_skin_guard "proxy" "hires" hostNoSkin []).1 (by decide)
    simpa using this,
   (copy_missing_skin_guard "proxy" "hires" hostTwoSel []).2 (by decide)⟩

/-- C10: when exactly one of `src_mesh`/`dst_mesh` is supplied (truthy),
the supplied argument is discarded — the run is identical to calling with
no arguments at all, both meshes are re-read from the selection, and the
two-meshes `RuntimeError` is raised whenever the selection does not hold
exactly two objects. -/
theorem copy_one_arg_discarded (a b : Option String) (host : Host)
    (hxor : optStrTruthy a ≠ optStrTruthy b) :
    copy_proxy_to_skin a b host = copy_proxy_to_skin none none host ∧
    ((host.lsSelection []).length ≠ 2 →
      (copy_proxy_to_skin a b host).1 =
        Outcome.runtimeError "You need to have TWO meshes selected!") := by
  have hc : (optStrTruthy a && optStrTruthy b) = false := by
    cases ha : optStrTruthy a <;> cases hb : optStrTruthy b <;> simp_all
  have hfalse : optStrTruthy a = false ∨ optStrTruthy b = false := by
    cases ha : optStrTruthy a <;> cases hb : optStrTruthy b <;> simp_all
  constructor
  · simp only [copy_proxy_to_skin, copy_proxy_to_skin_body]
    rw [hc]
    simp [optStrTruthy]
  · intro hlen
    exact (copy_two_mesh_guard a b host hfalse).1.mpr hlen

/-- C10 witness: passing only a source mesh with nothing selected still
behaves exactly like the no-argument call and raises the two-meshes
error. -/
theorem copy_one_arg_discarded_witness :
    copy_proxy_to_skin (some "pSphere1") none hostEmptySel =
        copy_proxy_to_skin none none hostEmptySel ∧
      (copy_proxy_to_skin (some "pSphere1") none hostEmptySel).1 =
        Outcome.runtimeError "You need to have TWO meshes selected!" :=
  ⟨(copy_one_arg_discarded (some "pSphere1") none hostEmptySel (by decide)).1,
   (copy_one_arg_discarded (some "pSphere1") none hostEmptySel (by decide)).2 (by decide)⟩

theorem copy_body_not_face_msg (a b : Option String) (host : Host) (tr : Trace) :
    (copy_proxy_to_skin_body a b host tr).1 ≠
      Outcome.runtimeError "Must select one or more faces" := by
  intro h
  rcases copy_body_msgs a b host tr _ h with h1 | h1 <;> exact absurd h1 (by decide)

/-- C3: `extract_faces` raises `RuntimeError` exactly when the host's
polygon-face filter finds no face in the operative list (the `face_list`
argument when truthy, otherwise the current selection): if the filter
result is falsy the call stops at the guard with the "Must select one or
more faces" error; if at least one face passes the filter, that error is
never raised. -/
theorem extract_face_guard (fl : Option (List String)) (nn : Option String)
    (ko cs : Bool) (host : Host) :
    (optListTruthy (host.filterExpandFaces
          (extract_selected_faces fl host [HostCall.undoInfoOpenChunk]).2
          (extract_selected_faces fl host [HostCall.undoInfoOpenChunk]).1) = false →
      extract_faces fl nn ko cs host =
        (Outcome.runtimeError "Must select one or more faces",
          (extract_selected_faces fl host [HostCall.undoInfoOpenChunk]).2 ++
            [HostCall.filterExpandFaces
                (extract_selected_faces fl host [HostCall.undoInfoOpenChunk]).1,
              HostCall.undoInfoCloseChunk, HostCall.undo])) ∧
    (optListTruthy (host.filterExpandFaces
          (extract_selected_faces fl host [HostCall.undoInfoOpenChunk]).2
          (extract_selected_faces fl host [HostCall.undoInfoOpenChunk]).1) = true →
      (extract_faces fl nn ko cs host).1 ≠
        Outcome.runtimeError "Must select one or more faces") := by
  constructor
  · intro h
    simp only [extract_faces, _undo, extract_faces_body, List.nil_append, h]
    simp [List.append_assoc]
  · intro h hc
    simp only [extract_faces, _undo, extract_faces_body, List.nil_append, h] at hc
    repeat' split at hc
    all_goals simp_all [copy_body_not_face_msg]

/-- C3 witness: with an empty selection the guard raises and the call
stops; with two faces selected (`hostA`) the guard error is not raised. -/
theorem extract_face_guard_witness :
    extract_faces none none false false hostEmptySel =
      (Outcome.runtimeError "Must select one or more faces",
        (extract_selected_faces none hostEmptySel [HostCall.undoInfoOpenChunk]).2 ++
          [HostCall.filterExpandFaces
              (extract_selected_faces none hostEmptySel [HostCall.undoInfoOpenChunk]).1,
            HostCall.undoInfoCloseChunk, HostCall.undo]) ∧
    (extract_faces none none false false hostA).1 ≠
      Outcome.runtimeError "Must select one or more faces" :=
  ⟨(extract_face_guard none none false false hostEmptySel).1 (by decide),
   (extract_face_guard none none false false hostA).2 (by decide)⟩

theorem copy_core_error_only_queries (s d : String) (host : Host) (tr : Trace) (m : String)
    (h : (copy_proxy_core s d host tr).1 = Outcome.runtimeError m)
    (htr : (tr.all fun c => isQueryCall c) = true) :
    ((copy_proxy_core s d host tr).2.all fun c => isQueryCall c) = true := by
  by_cases hsk : host.lsTypeSkinCluster (tr ++ [HostCall.listHistory s])
      (host.listHistory tr s) = []
  · rw [(copy_missing_skin_guard s d host tr).1 hsk]
    simp only [List.all_append, htr, Bool.true_and]
    simp [isQueryCall]
  · exact absurd h ((copy_missing_skin_guard s d host tr).2 hsk m)

/-- C6: a precondition-guard failure is atomic — when `extract_faces`
raises its no-faces guard error, every host call it has issued is a pure
query (besides the decorator's undo-control calls), and when
`copy_proxy_to_skin` raises either of its guard errors, every host call
it has issued is a pure query; in particular no scene-mutating call
(duplication, deletion, skin-cluster creation, weight copy, pose save or
restore, selection change) was performed. -/
theorem guard_failures_issue_only_queries :
    (∀ fl nn ko cs host,
      (extract_faces fl nn ko cs host).1 =
          Outcome.runtimeError "Must select one or more faces" →
      ((extract_faces fl nn ko cs host).2.all
        fun c => isQueryCall c || isUndoCtrl c) = true) ∧
    (∀ a b host m,
      (copy_proxy_to_skin a b host).1 = Outcome.runtimeError m →
      ((copy_proxy_to_skin a b host).2.all fun c => isQueryCall c) = true) := by
  constructor
  · intro fl nn ko cs host h
    cases hfe : optListTruthy (host.filterExpandFaces
        (extract_selected_faces fl host [HostCall.undoInfoOpenChunk]).2
        (extract_selected_faces fl host [HostCall.undoInfoOpenChunk]).1) with
    | false =>
      have heq := (extract_face_guard fl nn ko cs host).1 hfe
      rw [heq]
      simp only [extract_selected_faces]
      split <;> simp [isQueryCall, isUndoCtrl]
    | true => exact absurd h ((extract_face_guard fl nn ko cs host).2 hfe)
  · intro a b host m h
    cases hcond : (optStrTruthy a && optStrTruthy b) with
    | true =>
      have hbody : copy_proxy_to_skin a b host =
          copy_proxy_core (a.getD "") (b.getD "") host [] := by
        simp only [copy_proxy_to_skin, copy_proxy_to_skin_body, hcond, if_true]
      rw [hbody] at h ⊢
      exact copy_core_error_only_queries _ _ host [] m h (by decide)
    | false =>
      rcases hls : host.lsSelection [] with _ | ⟨m0, _ | ⟨m1, _ | ⟨m2, rest⟩⟩⟩
      all_goals
        simp only [copy_proxy_to_skin, copy_proxy_to_skin_body, hcond,
          Bool.false_eq_true, if_false, hls, List.nil_append] at h ⊢
      · simp [isQueryCall]
      · simp [isQueryCall]
      · exact copy_core_error_only_queries m0 m1 host [HostCall.lsSelection] m h (by decide)
      · simp [isQueryCall]

/-- C6 witness: the no-faces guard run and the missing-skin guard run both
issue only query calls. -/
theorem guard_failures_issue_only_queries_witness :
    ((extract_faces none none false false hostEmptySel).2.all
      fun c => isQueryCall c || isUndoCtrl c) = true ∧
    ((copy_proxy_to_skin none none hostNoSkin).2.all fun c => isQueryCall c) = true :=
  ⟨guard_failures_issue_only_queries.1 none none false false hostEmptySel (by decide),
   guard_failures_issue_only_queries.2 none none hostNoSkin
     "[] does not have a skinCluster" (by decide)⟩

/-- The arguments of a `dagPoseSave` call, `none` for any other call. -/
def saveArgsOf : HostCall → Option (List String × String)
  | HostCall.dagPoseSave infl n => some (infl, n)
  | _ => none

/-- Splits a trace at its first `dagPoseSave` call: returns the calls
before the save, the influence list and pose name passed to the save, and
the calls after it. -/
def saveSplit : Trace → Option (Trace × List String × String × Trace)
  | [] => none
  | c :: rest =>
    match saveArgsOf c with
    | some (infl, n) => some ([], infl, n, rest)
    | none =>
      match saveSplit rest with
      | none => none
      | some (pre, infl, n, r2) => some (c :: pre, infl, n, r2)

/-- Pose discipline of a completed `extract_faces` run returning `nm`: the
current pose of the influence list is saved under the temporary name
`extractInPose` and the very next calls restore the bind pose; the final
calls (before the decorator's close/undo pair) restore exactly the saved
pose, delete its node, and select the new mesh. -/
def extractPoseOK (host : Host) (nm : String) (t : Trace) : Prop :=
  match saveSplit t with
  | none => False
  | some (pre, infl, pname, rest) =>
    pname = "extractInPose" ∧
    rest.take 2 = [HostCall.dagPoseQueryBindPose infl,
      HostCall.dagPoseRestoreList
        (host.dagPoseQueryBindPose (pre ++ [HostCall.dagPoseSave infl pname]) infl)] ∧
    t.reverse.take 5 = [HostCall.undo, HostCall.undoInfoCloseChunk,
      HostCall.selectReplace nm,
      HostCall.deleteObj (host.dagPoseSave pre infl pname),
      HostCall.dagPoseRestore (host.dagPoseSave pre infl pname)]

/-- Pose discipline of a completed `copy_proxy_to_skin` run: the current
pose of the influence list is saved under the temporary name `skinToPose`
and the next call queries the bind pose; the final calls restore exactly
the saved pose, delete its node, and clear the selection. -/
def copyPoseOK (host : Host) (t : Trace) : Prop :=
  match saveSplit t with
  | none => False
  | some (pre, infl, pname, rest) =>
    pname = "skinToPose" ∧
    rest.take 1 = [HostCall.dagPoseQueryBindPose infl] ∧
    t.reverse.take 3 = [HostCall.selectClear,
      HostCall.deleteObj (host.dagPoseSave pre infl pname),
      HostCall.dagPoseRestore (host.dagPoseSave pre infl pname)]

theorem saveSplit_append_of_none (t1 t2 : Trace) (h : saveSplit t1 = none) :
    saveSplit (t1 ++ t2) =
      (saveSplit t2).map (fun r => (t1 ++ r.1, r.2.1, r.2.2.1, r.2.2.2)) := by
  induction t1 with
  | nil =>
    cases hs : saveSplit t2 with
    | none => simp [hs]
    | some r => rcases r with ⟨pre, infl, n, rest⟩; simp [hs]
  | cons c rest ih =>
    simp only [saveSplit, List.cons_append, List.append_eq] at h ⊢
    cases hc : saveArgsOf c with
    | some p =>
      rcases p with ⟨i, n⟩
      rw [hc] at h
      simp at h
    | none =>
      cases hr : saveSplit rest with
      | none =>
        rw [hc] at h
        rw [hr] at h
        rw [ih hr]
        cases hs : saveSplit t2 with
        | none => simp [hs]
        | some r => rcases r with ⟨pre, infl, n, r2⟩; simp [hs]
      | some r =>
        rcases r with ⟨pre, infl, n, r2⟩
        rw [hc] at h
        rw [hr] at h
        simp at h

set_option maxHeartbeats 1000000 in
theorem copy_core_poseOK (s d : String) (host : Host) (tr : Trace) (w : List String)
    (hpre : saveSplit tr = none)
    (h : (copy_proxy_core s d host tr).1 = Outcome.ok w) :
    copyPoseOK host (copy_proxy_core s d host tr).2 := by
  simp only [copy_proxy_core] at h ⊢
  repeat' split at h
  all_goals simp_all [copyPoseOK, saveSplit, saveArgsOf,
    saveSplit_append_of_none _ _ hpre, List.append_assoc, List.reverse_append]

set_option maxHeartbeats 1600000 in
/-- C7: both operations preserve the skeletal pose across the transfer at
the call-sequence level — on every run that passes its guards and returns,
the current pose of the influence list is saved under a named temporary
pose (`extractInPose` / `skinToPose`) before the bind pose is restored,
and the final calls restore exactly that saved pose and delete the
temporary pose node, leaving pose and pose-node set as before. -/
theorem operations_preserve_pose :
    (∀ fl nn ko cs host nm,
      (extract_faces fl nn ko cs host).1 = Outcome.ok nm →
      extractPoseOK host nm (extract_faces fl nn ko cs host).2) ∧
    (∀ a b host w,
      (copy_proxy_to_skin a b host).1 = Outcome.ok w →
      copyPoseOK host (copy_proxy_to_skin a b host).2) := by
  constructor
  · intro fl nn ko cs host nm h
    simp only [extract_faces, _undo, extract_faces_body, extract_selected_faces,
      List.nil_append] at h ⊢
    repeat' split at h
    all_goals try simp_all [extractPoseOK, saveSplit, saveArgsOf, List.append_assoc,
      List.reverse_append]
    all_goals rw [copy_body_trace_eq]
    all_goals simp_all [saveSplit, saveArgsOf, List.append_assoc, List.reverse_append]
  · intro a b host w h
    cases hcond : (optStrTruthy a && optStrTruthy b) with
    | true =>
      have hbody : copy_proxy_to_skin a b host =
          copy_proxy_core (a.getD "") (b.getD "") host [] := by
        simp only [copy_proxy_to_skin, copy_proxy_to_skin_body, hcond, if_true]
      rw [hbody] at h ⊢
      exact copy_core_poseOK _ _ host [] w rfl h
    | false =>
      rcases hls : host.lsSelection [] with _ | ⟨m0, _ | ⟨m1, _ | ⟨m2, rest⟩⟩⟩
      all_goals
        simp only [copy_proxy_to_skin, copy_proxy_to_skin_body, hcond,
          Bool.false_eq_true, if_false, hls, List.nil_append] at h ⊢
      · simp at h
      · simp at h
      · exact copy_core_poseOK m0 m1 host [HostCall.lsSelection] w rfl h
      · simp at h

/-- C7 witness: a successful `extract_faces` run and a successful
`copy_proxy_to_skin` run both follow the pose save/restore discipline. -/
theorem operations_preserve_pose_witness :
    extractPoseOK hostA "pCube1_copy" (extract_faces none none false false hostA).2 ∧
    copyPoseOK hostTwoSel (copy_proxy_to_skin none none hostTwoSel).2 :=
  ⟨operations_preserve_pose.1 none none false false hostA "pCube1_copy" (by decide),
   operations_preserve_pose.2 none none hostTwoSel ["hiresSkin"] (by decide)⟩

/-- The `copySkinWeights` calls of a trace. -/
def copySkinCallsOf (t : Trace) : Trace :=
  t.filter fun c => match c with
    | HostCall.copySkinWeights _ _ _ _ _ => true
    | _ => false

/-- C8: every `copy_proxy_to_skin` run that reaches the transfer step
(returns normally) performs exactly one `copySkinWeights` host call, with
`surfaceAssociation='closestPoint'`, `influenceAssociation='name'` and
`noMirror=True`, from the first source skinCluster to the first
destination skinCluster (the returned one); no other weight computation
call exists. -/
theorem copy_single_weight_transfer (s d : String) (host : Host) (tr : Trace)
    (w : List String) (h : (copy_proxy_core s d host tr).1 = Outcome.ok w) :
    host.lsTypeSkinCluster (tr ++ [HostCall.listHistory s]) (host.listHistory tr s) ≠ [] ∧
    w ≠ [] ∧
    copySkinCallsOf ((copy_proxy_core s d host tr).2) =
      copySkinCallsOf tr ++
        [HostCall.copySkinWeights
          ((host.lsTypeSkinCluster (tr ++ [HostCall.listHistory s])
            (host.listHistory tr s)).headD "")
          (w.headD "") "closestPoint" "name" true] := by
  simp only [copy_proxy_core] at h ⊢
  repeat' split at h
  all_goals try simp_all [copySkinCallsOf, List.filter_append]
  all_goals subst h
  all_goals simp_all [copySkinCallsOf, List.filter_append]

/-- C8 witness: the successful `hostTwoSel` run issues exactly the one
`copySkinWeights proxySkin hiresSkin closestPoint name noMirror` call. -/
theorem copy_single_weight_transfer_witness :
    hostTwoSel.lsTypeSkinCluster ([] ++ [HostCall.listHistory "proxy"])
        (hostTwoSel.listHistory [] "proxy") ≠ [] ∧
    (["hiresSkin"] : List String) ≠ [] ∧
    copySkinCallsOf ((copy_proxy_core "proxy" "hires" hostTwoSel []).2) =
      copySkinCallsOf [] ++
        [HostCall.copySkinWeights
          ((hostTwoSel.lsTypeSkinCluster ([] ++ [HostCall.listHistory "proxy"])
            (hostTwoSel.listHistory [] "proxy")).headD "")
          ((["hiresSkin"] : List String).headD "") "closestPoint" "name" true] :=
  copy_single_weight_transfer "proxy" "hires" hostTwoSel [] ["hiresSkin"] (by decide)

/-- C9: the script keeps no state of its own — the embedded functions
read nothing besides their arguments and the host's responses, so two
runs with identical arguments against hosts that answer every host-API
call identically return the same value and issue the same host-call
sequence. -/
theorem script_deterministic (h1 h2 : Host)
    (e1 : ∀ tr, h1.lsSelection tr = h2.lsSelection tr)
    (e2 : ∀ tr l, h1.filterExpandFaces tr l = h2.filterExpandFaces tr l)
    (e3 : ∀ tr, h1.listRelativesParentSel tr = h2.listRelativesParentSel tr)
    (e4 : ∀ tr l, h1.listRelativesParent tr l = h2.listRelativesParent tr l)
    (e5 : ∀ tr l, h1.skinClusterQueryWI tr l = h2.skinClusterQueryWI tr l)
    (e6 : ∀ tr o, h1.skinClusterQueryInf tr o = h2.skinClusterQueryInf tr o)
    (e7 : ∀ tr l n, h1.dagPoseSave tr l n = h2.dagPoseSave tr l n)
    (e8 : ∀ tr l, h1.dagPoseQueryBindPose tr l = h2.dagPoseQueryBindPose tr l)
    (e9 : ∀ tr o, h1.duplicate tr o = h2.duplicate tr o)
    (e10 : ∀ tr o n, h1.rename tr o n = h2.rename tr o n)
    (e11 : ∀ tr o, h1.listHistory tr o = h2.listHistory tr o)
    (e12 : ∀ tr l, h1.lsTypeSkinCluster tr l = h2.lsTypeSkinCluster tr l)
    (e13 : ∀ tr l o n, h1.skinClusterCreate tr l o n = h2.skinClusterCreate tr l o n) :
    (∀ fl nn ko cs, extract_faces fl nn ko cs h1 = extract_faces fl nn ko cs h2) ∧
    (∀ a b, copy_proxy_to_skin a b h1 = copy_proxy_to_skin a b h2) := by
  have heq : h1 = h2 := by
    cases h1
    cases h2
    congr 1
    · funext tr; exact e1 tr
    · funext tr l; exact e2 tr l
    · funext tr; exact e3 tr
    · funext tr l; exact e4 tr l
    · funext tr l; exact e5 tr l
    · funext tr o; exact e6 tr o
    · funext tr l n; exact e7 tr l n
    · funext tr l; exact e8 tr l
    · funext tr o; exact e9 tr o
    · funext tr o n; exact e10 tr o n
    · funext tr o; exact e11 tr o
    · funext tr l; exact e12 tr l
    · funext tr l o n; exact e13 tr l o n
  subst heq
  exact ⟨fun _ _ _ _ => rfl, fun _ _ => rfl⟩

/-- C9 witness: instantiating both hosts with `hostA` (which trivially
answers every call identically to itself). -/
theorem script_deterministic_witness :
    extract_faces none none false false hostA = extract_faces none none false false hostA ∧
    copy_proxy_to_skin none none hostA = copy_proxy_to_skin none none hostA :=
  ⟨(script_deterministic hostA hostA (fun _ => rfl) (fun _ _ => rfl) (fun _ => rfl)
      (fun _ _ => rfl) (fun _ _ => rfl) (fun _ _ => rfl) (fun _ _ _ => rfl)
      (fun _ _ => rfl) (fun _ _ => rfl) (fun _ _ _ => rfl) (fun _ _ => rfl)
      (fun _ _ => rfl) (fun _ _ _ _ => rfl)).1 none none false false,
   (script_deterministic hostA hostA (fun _ => rfl) (fun _ _ => rfl) (fun _ => rfl)
      (fun _ _ => rfl) (fun _ _ => rfl) (fun _ _ => rfl) (fun _ _ _ => rfl)
      (fun _ _ => rfl) (fun _ _ => rfl) (fun _ _ _ => rfl) (fun _ _ => rfl)
      (fun _ _ => rfl) (fun _ _ _ _ => rfl)).2 none none⟩
